import Mathlib

/-!
Shallow embedding of the browser client of the chess-position-generation
service, consisting of two scripts: the generation panel
(`src/frontend/script.js`) and the shared navbar widget
(`src/unnamed/part_000`, a file the source calls `navbar.js`).

Modelling conventions:
- Numeric text fields are read with JavaScript `parseInt`; a field that does
  not parse yields `NaN`.  We embed such a parsed value as `Option Int`, with
  `none` standing for `NaN`.  The JavaScript comparison `a >= b` is `false`
  whenever either side is `NaN`; `jsGE` embeds exactly that.
- DOM elements touched by the scripts are embedded as fields of explicit
  state records (`UIState`, `NavState`); `style.display` values and
  `textContent` are strings, a `classList` is a `List String`.
- An `async` handler is embedded as a pure function from the pre-state and
  the outcome of its awaited network call to the post-state; the outcome
  (resolved JSON value or thrown/rejected exception) is a parameter, since
  the network is an external collaborator.
- The network calls a handler issues are returned alongside the post-state
  as an explicit trace, so "no network call happens" is `calls = []`.
- JSON numbers that the script only ever passes through to `textContent`
  (material counts, evaluation lines, `time_seconds`) are embedded by their
  display string; `attempts`, which the script formats with
  `toLocaleString`, is embedded as `Nat`; `elo` is embedded as `Int`.
-/

/-- JavaScript `a >= b` on parsed integers: `false` whenever either side is
`NaN` (embedded as `none`). -/
def jsGE : Option Int → Option Int → Bool
  | some a, some b => decide (a ≥ b)
  | _, _ => false

/-- The character set `encodeURIComponent` leaves unescaped
(ECMA-262 `uriUnescaped`): ASCII letters, digits, and `- _ . ! ~ * ' ( )`. -/
def isUriUnescaped (c : Char) : Bool :=
  c.isAlpha || c.isDigit ||
    c = '-' || c = '_' || c = '.' || c = '!' || c = '~' || c = '*' ||
    c = Char.ofNat 39 || c = '(' || c = ')'

/-- Upper-case hexadecimal digit for a value below 16. -/
def hexDigit (n : Nat) : Char :=
  if n < 10 then Char.ofNat (48 + n) else Char.ofNat (65 + n - 10)

/-- UTF-8 bytes of a Unicode scalar value. -/
def utf8Bytes (n : Nat) : List Nat :=
  if n < 128 then [n]
  else if n < 2048 then [192 + n / 64, 128 + n % 64]
  else if n < 65536 then [224 + n / 4096, 128 + n / 64 % 64, 128 + n % 64]
  else [240 + n / 262144, 128 + n / 4096 % 64, 128 + n / 64 % 64, 128 + n % 64]

/-- Percent-encoding of one byte, `%HH` with upper-case hex. -/
def percentByte (b : Nat) : String :=
  String.mk ['%', hexDigit (b / 16 % 16), hexDigit (b % 16)]

/-- JavaScript `encodeURIComponent`: unescaped characters pass through,
every other character is replaced by the percent-encoding of its UTF-8
bytes. -/
def encodeURIComponent (s : String) : String :=
  String.join (s.toList.map fun c =>
    if isUriUnescaped c then String.singleton c
    else String.join ((utf8Bytes c.toNat).map percentByte))

/-- Digit-grouping step on a reversed digit list: after every three digits
insert a separator. -/
def commasRev : List Char → List Char
  | a :: b :: c :: d :: rest => a :: b :: c :: ',' :: commasRev (d :: rest)
  | l => l

/-- JavaScript `Number.prototype.toLocaleString` on a nonnegative integer,
in a representative locale that groups thousands with commas. -/
def toLocaleString (n : Nat) : String :=
  String.mk (commasRev (toString n).data.reverse).reverse

/-- Add a token to a `classList` (`classList.add`): no-op when present. -/
def addClass (cs : List String) (c : String) : List String :=
  if c ∈ cs then cs else cs ++ [c]

/-- Remove a token from a `classList` (`classList.remove`). -/
def removeClass (cs : List String) (c : String) : List String :=
  cs.filter (· ≠ c)

/-- The DOM state the generation panel script reads and writes:
the trigger button, its label and loader, the status div, the results div
and every result field `displayResults` populates. -/
structure UIState where
  genBtnDisabled : Bool
  btnTextDisplay : String
  btnLoaderDisplay : String
  statusText : String
  statusClasses : List String
  resultsClasses : List String
  fenText : String
  whiteMaterial : String
  blackMaterial : String
  materialDiff : String
  turnText : String
  evalLine1 : String
  evalLine2 : String
  attemptsText : String
  timeSecondsText : String
  lichessHref : String
  chesscomHref : String
deriving DecidableEq, Repr

/-- The `data` payload of a successful generation response
(`PositionReport`).  Fields the script passes through verbatim to
`textContent` are embedded by their display string; `attempts` is a `Nat`
because the script formats it with `toLocaleString`. -/
structure PositionReport where
  fen : String
  white_material : String
  black_material : String
  material_difference : String
  turn : String
  eval_line1 : String
  eval_line2 : String
  attempts : Nat
  time_seconds : String
deriving DecidableEq, Repr

/-- The JSON body of the POST to `/api/generate`: the three parsed field
values (`none` = `NaN`, serialized as `null`). -/
structure GenRequest where
  target_min : Option Int
  target_max : Option Int
  max_attempts : Option Int
deriving DecidableEq, Repr

/-- A well-formed generation response: `success` truthy with a `data`
payload, or `success` falsy with an `error` string (embedded by its display
string). -/
inductive GenResult where
  | ok (d : PositionReport)
  | err (e : String)
deriving DecidableEq, Repr

/-- Outcome of the awaited `fetch` + `response.json()` pair: a resolved
well-formed JSON value, or an exception (fetch rejection or JSON parse
failure) carrying `error.message`. -/
inductive FetchOutcome where
  | resolved (r : GenResult)
  | rejected (msg : String)
deriving DecidableEq, Repr

/-- Post-state of the click handler together with the trace of generation
requests it issued. -/
structure HandlerResult where
  ui : UIState
  calls : List GenRequest
deriving DecidableEq, Repr

/-- The `showStatus` helper: sets the status div text, replaces its
`className` by the two tokens `status` and the given type, then removes
`hidden`. -/
def showStatus (ui : UIState) (message ty : String) : UIState :=
  { ui with
    statusText := message,
    statusClasses := removeClass ["status", ty] "hidden" }

/-- The validation error message of the click handler. -/
def msgValidationError : String :=
  "Erreur: L\x27évaluation min doit être inférieure à l\x27évaluation max"

/-- The informational message shown while a request is in flight. -/
def msgGenerating : String :=
  "Génération en cours... Cela peut prendre jusqu\x27à 2 minutes."

/-- The success status message. -/
def msgSuccess : String := "✅ Position générée avec succès !"

/-- Status message for a response with `success` falsy, echoing the
server's error string. -/
def msgServerError (e : String) : String := "❌ Erreur: " ++ e

/-- Status message for a thrown/rejected request, echoing the exception's
message plus the backend hint. -/
def msgTransportError (m : String) : String :=
  "❌ Erreur de connexion: " ++ m ++ ". Vérifiez que le backend est démarré."

/-- The `displayResults` function: populates every result field from
`data`, formats `attempts` with `toLocaleString` and `time_seconds` with an
`s` suffix, builds both analysis links from the percent-encoded FEN, and
unhides the results div. -/
def displayResults (ui : UIState) (data : PositionReport) : UIState :=
  { ui with
    fenText := data.fen,
    whiteMaterial := data.white_material,
    blackMaterial := data.black_material,
    materialDiff := data.material_difference,
    turnText := data.turn,
    evalLine1 := data.eval_line1,
    evalLine2 := data.eval_line2,
    attemptsText := toLocaleString data.attempts,
    timeSecondsText := data.time_seconds ++ "s",
    lichessHref := "https://lichess.org/analysis/" ++ encodeURIComponent data.fen,
    chesscomHref := "https://www.chess.com/analysis?fen=" ++ encodeURIComponent data.fen,
    resultsClasses := removeClass ui.resultsClasses "hidden" }

/-- The `generateBtn` click handler: parse the three fields, abort with a
validation error when `targetMin >= targetMax`, otherwise disable the
button, show the loader, hide the results, show the info status, issue the
POST, render the outcome, and in the `finally` block re-enable the button,
restore the label and hide the loader. -/
def clickHandler (ui : UIState) (targetMin targetMax maxAttempts : Option Int)
    (outcome : FetchOutcome) : HandlerResult :=
  if jsGE targetMin targetMax then
    { ui := showStatus ui msgValidationError "error", calls := [] }
  else
    let ui := { ui with
      genBtnDisabled := true,
      btnTextDisplay := "none",
      btnLoaderDisplay := "inline-block",
      resultsClasses := addClass ui.resultsClasses "hidden" }
    let ui := showStatus ui msgGenerating "info"
    let call : GenRequest :=
      { target_min := targetMin, target_max := targetMax, max_attempts := maxAttempts }
    let ui := match outcome with
      | .resolved (.ok d) => showStatus (displayResults ui d) msgSuccess "success"
      | .resolved (.err e) => showStatus ui (msgServerError e) "error"
      | .rejected m => showStatus ui (msgTransportError m) "error"
    let ui := { ui with
      genBtnDisabled := false,
      btnTextDisplay := "inline",
      btnLoaderDisplay := "none" }
    { ui := ui, calls := [call] }

/-- An idle pre-state used by concrete witnesses: button enabled, label
shown, loader hidden, status and results hidden and empty. -/
def uiIdle : UIState :=
  { genBtnDisabled := false, btnTextDisplay := "inline",
    btnLoaderDisplay := "none", statusText := "",
    statusClasses := ["status", "hidden"], resultsClasses := ["hidden"],
    fenText := "", whiteMaterial := "", blackMaterial := "",
    materialDiff := "", turnText := "", evalLine1 := "", evalLine2 := "",
    attemptsText := "", timeSecondsText := "", lichessHref := "",
    chesscomHref := "" }

/-- Claim C1: for every input where `target_min >= target_max`, the click
handler shows an error status, issues no network call, and leaves every
other UI element untouched: button, label, loader, and the results panel's
visibility are unchanged. -/
theorem C1_validation_aborts (ui : UIState) (mn mx att : Option Int)
    (o : FetchOutcome) (h : jsGE mn mx = true) :
    (clickHandler ui mn mx att o).calls = [] ∧
    (clickHandler ui mn mx att o).ui.statusText = msgValidationError ∧
    (clickHandler ui mn mx att o).ui.statusClasses = ["status", "error"] ∧
    (clickHandler ui mn mx att o).ui.genBtnDisabled = ui.genBtnDisabled ∧
    (clickHandler ui mn mx att o).ui.btnTextDisplay = ui.btnTextDisplay ∧
    (clickHandler ui mn mx att o).ui.btnLoaderDisplay = ui.btnLoaderDisplay ∧
    (clickHandler ui mn mx att o).ui.resultsClasses = ui.resultsClasses := by
  simp [clickHandler, h, showStatus, removeClass]

/-- Witness for C1 at `targetMin = 5`, `targetMax = 3`. -/
theorem C1_validation_aborts_witness :
    jsGE (some 5) (some 3) = true ∧
    ((clickHandler uiIdle (some 5) (some 3) (some 100) (.rejected "x")).calls = [] ∧
     (clickHandler uiIdle (some 5) (some 3) (some 100) (.rejected "x")).ui.statusText = msgValidationError ∧
     (clickHandler uiIdle (some 5) (some 3) (some 100) (.rejected "x")).ui.statusClasses = ["status", "error"] ∧
     (clickHandler uiIdle (some 5) (some 3) (some 100) (.rejected "x")).ui.genBtnDisabled = uiIdle.genBtnDisabled ∧
     (clickHandler uiIdle (some 5) (some 3) (some 100) (.rejected "x")).ui.btnTextDisplay = uiIdle.btnTextDisplay ∧
     (clickHandler uiIdle (some 5) (some 3) (some 100) (.rejected "x")).ui.btnLoaderDisplay = uiIdle.btnLoaderDisplay ∧
     (clickHandler uiIdle (some 5) (some 3) (some 100) (.rejected "x")).ui.resultsClasses = uiIdle.resultsClasses) :=
  ⟨by decide, C1_validation_aborts uiIdle (some 5) (some 3) (some 100) (.rejected "x") (by decide)⟩

/-- Counterexample to claim C2: with `targetMin` malformed (`NaN`) and
`targetMax = 10`, the guard `NaN >= 10` is `false`, so the handler is NOT
caught before the network call: the POST is issued. -/
theorem C2_malformed_not_caught_counterexample :
    (clickHandler uiIdle none (some 10) (some 100) (.rejected "x")).calls ≠ [] := by
  decide

/-- Claim C2 amended: malformed numeric inputs are not caught client-side.
A `NaN` in either target makes the ordering guard `false`, and whenever the
guard is `false` the handler proceeds to issue exactly one network call
carrying the (possibly malformed) parsed values. -/
theorem C2_malformed_dispatches (mn mx att : Option Int) (ui : UIState)
    (o : FetchOutcome) (h : jsGE mn mx = false) :
    jsGE none mx = false ∧ jsGE mn none = false ∧
    (clickHandler ui mn mx att o).calls =
      [{ target_min := mn, target_max := mx, max_attempts := att }] := by
  refine ⟨rfl, ?_, ?_⟩
  · cases mn <;> rfl
  · cases o with
    | resolved r =>
      cases r <;> simp [clickHandler, h]
    | rejected m => simp [clickHandler, h]

/-- Witness for the amended C2 at `targetMin = NaN`, `targetMax = 10`. -/
theorem C2_malformed_dispatches_witness :
    jsGE none (some 10) = false ∧
    (jsGE none (some 10) = false ∧ jsGE none none = false ∧
     (clickHandler uiIdle none (some 10) (some 100) (.rejected "x")).calls =
       [{ target_min := none, target_max := some 10, max_attempts := some 100 }]) :=
  ⟨by decide,
   C2_malformed_dispatches none (some 10) (some 100) uiIdle (.rejected "x") (by decide)⟩

/-- Claim C3: on a well-formed successful response that passed validation,
every rendered field equals the corresponding field of `data` verbatim,
except `attempts` (locale thousands separators) and `time_seconds` (unit
suffix); both analysis links are the fixed templates filled with the
percent-encoded FEN; the results panel is unhidden and the success status
shown. -/
theorem C3_success_renders_verbatim (ui : UIState) (mn mx att : Option Int)
    (d : PositionReport) (h : jsGE mn mx = false) :
    (clickHandler ui mn mx att (.resolved (.ok d))).ui.fenText = d.fen ∧
    (clickHandler ui mn mx att (.resolved (.ok d))).ui.whiteMaterial = d.white_material ∧
    (clickHandler ui mn mx att (.resolved (.ok d))).ui.blackMaterial = d.black_material ∧
    (clickHandler ui mn mx att (.resolved (.ok d))).ui.materialDiff = d.material_difference ∧
    (clickHandler ui mn mx att (.resolved (.ok d))).ui.turnText = d.turn ∧
    (clickHandler ui mn mx att (.resolved (.ok d))).ui.evalLine1 = d.eval_line1 ∧
    (clickHandler ui mn mx att (.resolved (.ok d))).ui.evalLine2 = d.eval_line2 ∧
    (clickHandler ui mn mx att (.resolved (.ok d))).ui.attemptsText = toLocaleString d.attempts ∧
    (clickHandler ui mn mx att (.resolved (.ok d))).ui.timeSecondsText = d.time_seconds ++ "s" ∧
    (clickHandler ui mn mx att (.resolved (.ok d))).ui.lichessHref =
      "https://lichess.org/analysis/" ++ encodeURIComponent d.fen ∧
    (clickHandler ui mn mx att (.resolved (.ok d))).ui.chesscomHref =
      "https://www.chess.com/analysis?fen=" ++ encodeURIComponent d.fen ∧
    "hidden" ∉ (clickHandler ui mn mx att (.resolved (.ok d))).ui.resultsClasses ∧
    (clickHandler ui mn mx att (.resolved (.ok d))).ui.statusText = msgSuccess ∧
    (clickHandler ui mn mx att (.resolved (.ok d))).ui.statusClasses = ["status", "success"] := by
  simp [clickHandler, h, showStatus, displayResults, removeClass, addClass,
    List.mem_filter]

/-- Sample payload used by the C3 witness. -/
def reportSample : PositionReport :=
  { fen := "4k3/8 w - - 0 1", white_material := "10", black_material := "9",
    material_difference := "1", turn := "Blancs", eval_line1 := "+1.2",
    eval_line2 := "+1.1", attempts := 1234567, time_seconds := "12.5" }

/-- Witness for C3 on a concrete payload; in particular the FEN's spaces
and slash are percent-encoded in both links and `attempts` is rendered
with separators. -/
theorem C3_success_renders_verbatim_witness :
    jsGE (some 0) (some 10) = false ∧
    (clickHandler uiIdle (some 0) (some 10) (some 100) (.resolved (.ok reportSample))).ui.fenText = reportSample.fen ∧
    (clickHandler uiIdle (some 0) (some 10) (some 100) (.resolved (.ok reportSample))).ui.attemptsText = toLocaleString reportSample.attempts ∧
    (clickHandler uiIdle (some 0) (some 10) (some 100) (.resolved (.ok reportSample))).ui.attemptsText = "1,234,567" ∧
    (clickHandler uiIdle (some 0) (some 10) (some 100) (.resolved (.ok reportSample))).ui.timeSecondsText = "12.5s" ∧
    (clickHandler uiIdle (some 0) (some 10) (some 100) (.resolved (.ok reportSample))).ui.lichessHref =
      "https://lichess.org/analysis/4k3%2F8%20w%20-%20-%200%201" ∧
    "hidden" ∉ (clickHandler uiIdle (some 0) (some 10) (some 100) (.resolved (.ok reportSample))).ui.resultsClasses := by
  have h := C3_success_renders_verbatim uiIdle (some 0) (some 10) (some 100)
    reportSample (by decide)
  refine ⟨by decide, h.1, h.2.2.2.2.2.2.2.1, ?_, h.2.2.2.2.2.2.2.2.1, ?_, ?_⟩
  · rw [h.2.2.2.2.2.2.2.1]; decide
  · rw [h.2.2.2.2.2.2.2.2.2.1]; decide
  · exact h.2.2.2.2.2.2.2.2.2.2.2.1

/-- Claim C4: a `success=false` response renders the server-error template
containing the server's error string; a thrown/rejected request renders the
distinct connection-failure template echoing the exception's message plus
the backend hint. -/
theorem C4_error_messages (ui : UIState) (mn mx att : Option Int)
    (e m : String) (h : jsGE mn mx = false) :
    (clickHandler ui mn mx att (.resolved (.err e))).ui.statusText =
      "❌ Erreur: " ++ e ∧
    (clickHandler ui mn mx att (.resolved (.err e))).ui.statusClasses = ["status", "error"] ∧
    (clickHandler ui mn mx att (.rejected m)).ui.statusText =
      "❌ Erreur de connexion: " ++ m ++ ". Vérifiez que le backend est démarré." ∧
    (clickHandler ui mn mx att (.rejected m)).ui.statusClasses = ["status", "error"] := by
  simp [clickHandler, h, showStatus, removeClass, msgServerError, msgTransportError]

/-- Witness for C4 with server error `"boom"` and exception message
`"Failed to fetch"`. -/
theorem C4_error_messages_witness :
    jsGE (some 0) (some 10) = false ∧
    ((clickHandler uiIdle (some 0) (some 10) (some 100) (.resolved (.err "boom"))).ui.statusText =
       "❌ Erreur: " ++ "boom" ∧
     (clickHandler uiIdle (some 0) (some 10) (some 100) (.resolved (.err "boom"))).ui.statusClasses = ["status", "error"] ∧
     (clickHandler uiIdle (some 0) (some 10) (some 100) (.rejected "Failed to fetch")).ui.statusText =
       "❌ Erreur de connexion: " ++ "Failed to fetch" ++ ". Vérifiez que le backend est démarré." ∧
     (clickHandler uiIdle (some 0) (some 10) (some 100) (.rejected "Failed to fetch")).ui.statusClasses = ["status", "error"]) :=
  ⟨by decide,
   C4_error_messages uiIdle (some 0) (some 10) (some 100) "boom" "Failed to fetch" (by decide)⟩

/-- Claim C5: for every dispatched request (validation passed), the
`finally` block runs on every outcome: the button is re-enabled, the label
shown and the loader hidden. -/
theorem C5_finally_restores (ui : UIState) (mn mx att : Option Int)
    (o : FetchOutcome) (h : jsGE mn mx = false) :
    (clickHandler ui mn mx att o).ui.genBtnDisabled = false ∧
    (clickHandler ui mn mx att o).ui.btnTextDisplay = "inline" ∧
    (clickHandler ui mn mx att o).ui.btnLoaderDisplay = "none" := by
  cases o with
  | resolved r => cases r <;> simp [clickHandler, h]
  | rejected m => simp [clickHandler, h]

/-- Witness for C5 on a rejected fetch. -/
theorem C5_finally_restores_witness :
    jsGE (some 0) (some 10) = false ∧
    ((clickHandler uiIdle (some 0) (some 10) (some 100) (.rejected "Failed to fetch")).ui.genBtnDisabled = false ∧
     (clickHandler uiIdle (some 0) (some 10) (some 100) (.rejected "Failed to fetch")).ui.btnTextDisplay = "inline" ∧
     (clickHandler uiIdle (some 0) (some 10) (some 100) (.rejected "Failed to fetch")).ui.btnLoaderDisplay = "none") :=
  ⟨by decide,
   C5_finally_restores uiIdle (some 0) (some 10) (some 100) (.rejected "Failed to fetch") (by decide)⟩

/-- The user record of the session-check response (`navbar.js`). -/
structure NavUser where
  username : String
  elo : Int
deriving DecidableEq, Repr

/-- The DOM state the navbar script reads and writes, plus the module
global `navUser`.  All five looked-up elements are taken to be present
(the `if (element)` guards in the source then always pass). -/
structure NavState where
  userInfoDisplay : String
  logoutDisplay : String
  loginDisplay : String
  usernameText : String
  eloText : String
  navUser : Option NavUser
deriving DecidableEq, Repr

/-- A well-formed session-check JSON body: the `success` flag and the
optional `user` field (`none` = absent/undefined). -/
structure AuthData where
  success : Bool
  user : Option NavUser
deriving DecidableEq, Repr

/-- Outcome of the awaited session-check `fetch` + `response.json()`:
a resolved JSON body, or an exception (network failure or non-JSON
response). -/
inductive AuthOutcome where
  | resolved (d : AuthData)
  | rejected
deriving DecidableEq, Repr

/-- The `showAuthenticatedNavbar` function on a defined user: show the
user-info block and logout button, hide the login button, and render the
username and the `ELO:` figure. -/
def showAuthenticatedNavbar (st : NavState) (user : NavUser) : NavState :=
  { st with
    userInfoDisplay := "flex",
    logoutDisplay := "inline-block",
    loginDisplay := "none",
    usernameText := user.username,
    eloText := "ELO: " ++ toString user.elo }

/-- The display mutations `showAuthenticatedNavbar` performs before it
dereferences `user`: when `user` is `undefined`, the function executes
these three assignments and then throws a `TypeError` at
`user.username`. -/
def authNavbarBeforeThrow (st : NavState) : NavState :=
  { st with
    userInfoDisplay := "flex",
    logoutDisplay := "inline-block",
    loginDisplay := "none" }

/-- The `showUnauthenticatedNavbar` function: hide the user-info block and
logout button, show the login button. -/
def showUnauthenticatedNavbar (st : NavState) : NavState :=
  { st with
    userInfoDisplay := "none",
    logoutDisplay := "none",
    loginDisplay := "inline-block" }

/-- The `initNavbar` function: on a resolved body with `success` truthy,
store `data.user` in `navUser` and render the authenticated navbar — if
`data.user` is `undefined` the authenticated rendering throws midway and
the `catch` falls back to the unauthenticated navbar; on `success` falsy or
a rejected fetch, render the unauthenticated navbar. -/
def initNavbar (st : NavState) (o : AuthOutcome) : NavState :=
  match o with
  | .rejected => showUnauthenticatedNavbar st
  | .resolved d =>
    if d.success then
      match d.user with
      | some u => showAuthenticatedNavbar { st with navUser := some u } u
      | none =>
        showUnauthenticatedNavbar (authNavbarBeforeThrow { st with navUser := none })
    else showUnauthenticatedNavbar st

/-- The user record a session-check outcome successfully delivers:
`some u` exactly when the body resolved with `success` truthy and a defined
`user`. -/
def authUserOf : AuthOutcome → Option NavUser
  | .resolved d => if d.success then d.user else none
  | .rejected => none

/-- Claim C6: every session-check outcome ends in exactly one of two navbar
states — a success with a defined user stores it and renders the
authenticated navbar (username and `ELO:` figure shown, login hidden,
logout shown); every other outcome (failure flag, malformed response,
network exception) renders the unauthenticated navbar. -/
theorem C6_initNavbar_dichotomy (st : NavState) (o : AuthOutcome) :
    (∃ u, authUserOf o = some u ∧
      initNavbar st o =
        { st with
          navUser := some u,
          userInfoDisplay := "flex",
          logoutDisplay := "inline-block",
          loginDisplay := "none",
          usernameText := u.username,
          eloText := "ELO: " ++ toString u.elo }) ∨
    (authUserOf o = none ∧
      (initNavbar st o).userInfoDisplay = "none" ∧
      (initNavbar st o).logoutDisplay = "none" ∧
      (initNavbar st o).loginDisplay = "inline-block") := by
  cases o with
  | rejected =>
    right
    simp [authUserOf, initNavbar, showUnauthenticatedNavbar]
  | resolved d =>
    by_cases hs : d.success
    · cases hu : d.user with
      | some u =>
        left
        exact ⟨u, by simp [authUserOf, hs, hu],
          by simp [initNavbar, hs, hu, showAuthenticatedNavbar]⟩
      | none =>
        right
        simp [authUserOf, initNavbar, hs, hu, showUnauthenticatedNavbar,
          authNavbarBeforeThrow]
    · right
      simp [authUserOf, initNavbar, hs, showUnauthenticatedNavbar]

/-- Outcome of awaiting the optional `setPlayerOffline` global hook. -/
inductive HookResult where
  | resolves
  | throws
deriving DecidableEq, Repr

/-- Whether a global `setPlayerOffline` function exists, and if so how its
awaited invocation behaves. -/
inductive HookConfig where
  | absent
  | present (r : HookResult)
deriving DecidableEq, Repr

/-- Outcome of the awaited logout `fetch` + `response.json()`: a resolved
body with `success` flag and error string (by its display string), or an
exception. -/
inductive LogoutFetch where
  | resolved (success : Bool) (error : String)
  | rejected
deriving DecidableEq, Repr

/-- Observable effects of one `handleNavLogout` run: the endpoints called,
whether `localStorage.clear()` ran, the navigation target assigned to
`window.location.href` (if any), whether the hook was invoked, and the
blocking alert shown (if any). -/
structure LogoutResult where
  calls : List String
  storageCleared : Bool
  navigatedTo : Option String
  hookInvoked : Bool
  alertMsg : Option String
deriving DecidableEq, Repr

/-- The `handleNavLogout` function: abort silently when the confirmation
prompt is declined; otherwise invoke and await the `setPlayerOffline` hook
when it exists (a throw jumps to the `catch`, which shows the generic
connection alert before any network call); otherwise POST to the logout
endpoint, and on `success` clear local storage and navigate to
`auth.html`, on a failure flag alert with the server's error string, and
on an exception alert with the generic connection message. -/
def handleNavLogout (confirmed : Bool) (hook : HookConfig)
    (f : LogoutFetch) : LogoutResult :=
  if !confirmed then
    { calls := [], storageCleared := false, navigatedTo := none,
      hookInvoked := false, alertMsg := none }
  else
    match hook with
    | .present .throws =>
      { calls := [], storageCleared := false, navigatedTo := none,
        hookInvoked := true, alertMsg := some "Erreur de connexion au serveur" }
    | _ =>
      let invoked := match hook with
        | .present _ => true
        | .absent => false
      match f with
      | .resolved true _ =>
        { calls := ["/api/auth/logout"], storageCleared := true,
          navigatedTo := some "auth.html", hookInvoked := invoked,
          alertMsg := none }
      | .resolved false e =>
        { calls := ["/api/auth/logout"], storageCleared := false,
          navigatedTo := none, hookInvoked := invoked,
          alertMsg := some ("Erreur de déconnexion: " ++ e) }
      | .rejected =>
        { calls := ["/api/auth/logout"], storageCleared := false,
          navigatedTo := none, hookInvoked := invoked,
          alertMsg := some "Erreur de connexion au serveur" }

/-- Claim C7: declining the confirmation prompt returns immediately with no
side effects — no network call, storage untouched, no navigation, the hook
not invoked, no alert. -/
theorem C7_decline_no_effects (hook : HookConfig) (f : LogoutFetch) :
    handleNavLogout false hook f =
      { calls := [], storageCleared := false, navigatedTo := none,
        hookInvoked := false, alertMsg := none } := by
  simp [handleNavLogout]

/-- Claim C8: when logout is confirmed, the hook (if any) does not throw,
and the endpoint returns `success = true`, local storage is cleared
wholesale and the browser navigates to the authentication page. -/
theorem C8_logout_success (hook : HookConfig) (e : String)
    (h : hook ≠ HookConfig.present .throws) :
    (handleNavLogout true hook (.resolved true e)).calls = ["/api/auth/logout"] ∧
    (handleNavLogout true hook (.resolved true e)).storageCleared = true ∧
    (handleNavLogout true hook (.resolved true e)).navigatedTo = some "auth.html" := by
  cases hook with
  | absent => simp [handleNavLogout]
  | present r =>
    cases r with
    | resolves => simp [handleNavLogout]
    | throws => exact absurd rfl h

/-- Witness for C8 with no hook present. -/
theorem C8_logout_success_witness :
    HookConfig.absent ≠ HookConfig.present .throws ∧
    ((handleNavLogout true .absent (.resolved true "")).calls = ["/api/auth/logout"] ∧
     (handleNavLogout true .absent (.resolved true "")).storageCleared = true ∧
     (handleNavLogout true .absent (.resolved true "")).navigatedTo = some "auth.html") :=
  ⟨by decide, C8_logout_success .absent "" (by decide)⟩

/-- Claim C10: when logout is confirmed and the `setPlayerOffline` hook
exists but throws, the logout POST is never issued, storage is not
cleared, no navigation occurs, and the generic connection-failure alert is
shown. -/
theorem C10_hook_throw_aborts (f : LogoutFetch) :
    handleNavLogout true (.present .throws) f =
      { calls := [], storageCleared := false, navigatedTo := none,
        hookInvoked := true,
        alertMsg := some "Erreur de connexion au serveur" } := by
  simp [handleNavLogout]

/-- A navigation link of the navbar: its `href` attribute and whether its
`classList` contains `active`. -/
structure NavLink where
  href : String
  active : Bool
deriving DecidableEq, Repr

/-- JavaScript `String.prototype.split` on the separator `/`, over the
character list with an accumulator for the current segment. -/
def splitSlashAux : List Char → List Char → List (List Char)
  | [], acc => [acc.reverse]
  | c :: cs, acc =>
    if c = '/' then acc.reverse :: splitSlashAux cs []
    else splitSlashAux cs (c :: acc)

/-- The current page name `setActiveNavLink` computes:
`window.location.pathname.split('/').pop() || 'index.html'` — the last
`/`-separated segment of the path, defaulting to `index.html` when that
segment is the empty string. -/
def currentPageOf (path : String) : String :=
  let popped := (splitSlashAux path.toList []).getLastD []
  if popped = [] then "index.html" else String.mk popped

/-- The per-link body of `setActiveNavLink`: remove the `active` marker,
then add it back when the link's `href` equals the current page, or when
the current page is `""` or `"/"` and the `href` is `index.html`. -/
def markLink (currentPage : String) (link : NavLink) : NavLink :=
  if link.href = currentPage ∨
      (currentPage = "" ∧ link.href = "index.html") ∨
      (currentPage = "/" ∧ link.href = "index.html") then
    { link with active := true }
  else
    { link with active := false }

/-- The `setActiveNavLink` function: reconcile the `active` marker of every
navigation link against the current page name computed from the path. -/
def setActiveNavLink (path : String) (links : List NavLink) : List NavLink :=
  links.map (markLink (currentPageOf path))

/-- Marking a link is insensitive to its previous marker, so marking twice
equals marking once. -/
theorem markLink_idem (cp : String) (l : NavLink) :
    markLink cp (markLink cp l) = markLink cp l := by
  unfold markLink
  by_cases h : l.href = cp ∨ (cp = "" ∧ l.href = "index.html") ∨
      (cp = "/" ∧ l.href = "index.html") <;> simp [h]

/-- Claim C9: `setActiveNavLink` is idempotent, and on both the path
`/index.html` and the empty path it marks a link as active exactly when
its `href` is `index.html`, removing the marker from every other link. -/
theorem C9_setActiveNavLink (path : String) (links : List NavLink)
    (l l0 : NavLink)
    (h : l ∈ setActiveNavLink "/index.html" links)
    (h0 : l0 ∈ setActiveNavLink "" links) :
    setActiveNavLink path (setActiveNavLink path links) =
      setActiveNavLink path links ∧
    (l.active = true ↔ l.href = "index.html") ∧
    (l0.active = true ↔ l0.href = "index.html") := by
  refine ⟨?_, ?_, ?_⟩
  · simp only [setActiveNavLink, List.map_map]
    exact List.map_congr_left fun a _ => markLink_idem _ a
  · obtain ⟨a, _, rfl⟩ := List.mem_map.mp h
    have hcp : currentPageOf "/index.html" = "index.html" := by decide
    rw [hcp] at *
    unfold markLink
    by_cases ha : a.href = "index.html" <;> simp [ha]
  · obtain ⟨a, _, rfl⟩ := List.mem_map.mp h0
    have hcp : currentPageOf "" = "index.html" := by decide
    rw [hcp] at *
    unfold markLink
    by_cases ha : a.href = "index.html" <;> simp [ha]

/-- Witness for C9 on a two-link navbar. -/
theorem C9_setActiveNavLink_witness :
    (⟨"index.html", true⟩ : NavLink) ∈
      setActiveNavLink "/index.html" [⟨"index.html", true⟩, ⟨"game.html", true⟩] ∧
    (⟨"game.html", false⟩ : NavLink) ∈
      setActiveNavLink "" [⟨"index.html", true⟩, ⟨"game.html", true⟩] ∧
    (setActiveNavLink "/game.html"
        (setActiveNavLink "/game.html" [⟨"index.html", true⟩, ⟨"game.html", true⟩]) =
      setActiveNavLink "/game.html" [⟨"index.html", true⟩, ⟨"game.html", true⟩] ∧
     ((⟨"index.html", true⟩ : NavLink).active = true ↔
        (⟨"index.html", true⟩ : NavLink).href = "index.html") ∧
     ((⟨"game.html", false⟩ : NavLink).active = true ↔
        (⟨"game.html", false⟩ : NavLink).href = "index.html")) := by
  refine ⟨by decide, by decide, ?_⟩
  exact C9_setActiveNavLink "/game.html"
    [⟨"index.html", true⟩, ⟨"game.html", true⟩]
    ⟨"index.html", true⟩ ⟨"game.html", false⟩ (by decide) (by decide)
